import Mathlib

/-!
Verification development for the `AutomotiveIoT` Raspberry Pi dashcam controller
(`src/raspberry_pi/dashcam.py`).

The Python source is shallowly embedded: the configuration constants, the
circular frame buffer (`collections.deque` with `maxlen`), clip extraction
(`DashcamRecorder.save_clip`), screenshot capture
(`DashcamRecorder.capture_screenshot`), storage cleanup
(`DashcamRecorder._cleanup_old_clips`), and the sensor-record dispatch path
(`ArduinoInterface.read_sensor_data` plus the event checks in `main`) are
translated into executable Lean definitions, and the specified properties are
proved or refuted about those definitions.

Conventions: timestamps and file modification times are rationals (`ℚ`);
file sizes are natural numbers of bytes; the on-disk clip directory is a list
of file records; external fallible operations (video write, `unlink`, serial
decode, JSON parse) are modelled by explicit success/failure parameters, and a
Python exception that the source does not catch is modelled by an
`Except.error` result (or a `none`), while exceptions the source catches never
escape the modelled function.
-/

/-- Configuration constant `VIDEO_FPS = 30` (dashcam.py line 51). -/
def VIDEO_FPS : ℕ := 30

/-- Configuration constant `BUFFER_DURATION = 30` seconds (dashcam.py line 53). -/
def BUFFER_DURATION : ℕ := 30

/-- Configuration constant `MAX_STORAGE_GB = 20` (dashcam.py line 57). -/
def MAX_STORAGE_GB : ℕ := 20

/-- Capacity of the circular buffer: `deque(maxlen=BUFFER_DURATION * VIDEO_FPS)`
(dashcam.py line 70). -/
def bufferCapacity : ℕ := BUFFER_DURATION * VIDEO_FPS

/-- One buffered frame: the `(timestamp, frame)` pair appended by the capture
loop (dashcam.py lines 116-119).  `captured_at` is the `time.time()` value;
`pixels` stands in for the opaque pixel array. -/
structure Frame where
  captured_at : ℚ
  pixels : ℕ
deriving DecidableEq

/-- One push into the `deque(maxlen=capacity)`: `self.buffer.append(...)`
(dashcam.py line 119).  A `deque` with `maxlen` keeps the most recent
`capacity` elements, silently discarding from the left when full. -/
def pushFrame (capacity : ℕ) (buf : List Frame) (f : Frame) : List Frame :=
  (buf ++ [f]).drop ((buf ++ [f]).length - capacity)

/-- The buffer contents after the capture loop pushes the frames `fs`, in
order, into an initially empty buffer (dashcam.py lines 113-120). -/
def pushAllFrames (fs : List Frame) : List Frame :=
  fs.foldl (pushFrame bufferCapacity) []

theorem foldl_pushFrame_eq (cap : ℕ) (fs : List Frame) : ∀ b : List Frame,
    b.length ≤ cap →
    fs.foldl (pushFrame cap) b = (b ++ fs).drop ((b ++ fs).length - cap) := by
  induction fs with
  | nil =>
    intro b hb
    simp [Nat.sub_eq_zero_of_le hb]
  | cons f fs ih =>
    intro b hb
    have hlen : (pushFrame cap b f).length ≤ cap := by
      rw [pushFrame]
      simp only [List.length_drop]
      omega
    rw [List.foldl_cons, ih (pushFrame cap b f) hlen]
    have hk : (b ++ [f]).length - cap ≤ (b ++ [f]).length := Nat.sub_le _ _
    have h1 : pushFrame cap b f ++ fs
        = ((b ++ [f]) ++ fs).drop ((b ++ [f]).length - cap) := by
      rw [pushFrame, List.drop_append_of_le_length hk]
    rw [h1, List.drop_drop]
    have h2 : (b ++ [f]) ++ fs = b ++ f :: fs := by simp
    rw [h2]
    congr 1
    simp only [List.length_drop, List.length_append, List.length_cons, List.length_nil]
    omega

/-- C1: starting from an empty buffer, after any sequence of pushes the
buffer holds at most `bufferCapacity = BUFFER_DURATION * VIDEO_FPS` frames,
its contents are exactly the most recently pushed `bufferCapacity` frames
(all of them when fewer were pushed), and a push into a full buffer evicts
exactly the oldest frame. -/
theorem buffer_ring_invariant (fs : List Frame) (buf : List Frame) (f : Frame)
    (hfull : buf.length = bufferCapacity) :
    (pushAllFrames fs).length ≤ bufferCapacity ∧
    pushAllFrames fs = fs.drop (fs.length - bufferCapacity) ∧
    pushFrame bufferCapacity buf f = buf.drop 1 ++ [f] := by
  have hmain : pushAllFrames fs = fs.drop (fs.length - bufferCapacity) := by
    rw [pushAllFrames, foldl_pushFrame_eq bufferCapacity fs [] (by simp)]
    simp
  refine ⟨?_, hmain, ?_⟩
  · rw [hmain]
    simp only [List.length_drop]
    omega
  · have hcap : 1 ≤ bufferCapacity := by decide
    rw [pushFrame]
    have h1 : (buf ++ [f]).length - bufferCapacity = 1 := by
      simp [hfull]
    rw [h1, List.drop_append_of_le_length (by omega)]

theorem buffer_ring_invariant_witness :
    (List.replicate bufferCapacity (Frame.mk 0 0)).length = bufferCapacity ∧
    ((pushAllFrames []).length ≤ bufferCapacity ∧
      pushAllFrames [] = ([] : List Frame).drop (([] : List Frame).length - bufferCapacity) ∧
      pushFrame bufferCapacity (List.replicate bufferCapacity (Frame.mk 0 0)) (Frame.mk 1 1)
        = (List.replicate bufferCapacity (Frame.mk 0 0)).drop 1 ++ [Frame.mk 1 1]) :=
  ⟨by simp,
   buffer_ring_invariant [] (List.replicate bufferCapacity (Frame.mk 0 0)) (Frame.mk 1 1)
     (by simp)⟩

/-- Python slice `l[-n:]` for a natural number `n` (dashcam.py line 159,
`frames[-total_frames:]`).  Python evaluates `-0` as `0`, so when `n = 0` the
slice `l[-0:]` is `l[0:]`, the whole list, not the empty list. -/
def pySliceLast (n : ℕ) (l : List Frame) : List Frame :=
  if n = 0 then l else l.drop (l.length - n)

/-- Frame selection in `save_clip` (dashcam.py lines 156-159):
`total_frames = (seconds_before + seconds_after) * VIDEO_FPS`;
`if len(frames) > total_frames: frames = frames[-total_frames:]`. -/
def selectFrames (frames : List Frame) (seconds_before seconds_after : ℕ) : List Frame :=
  if (seconds_before + seconds_after) * VIDEO_FPS < frames.length then
    pySliceLast ((seconds_before + seconds_after) * VIDEO_FPS) frames
  else frames

/-- Clip file name (dashcam.py lines 148-149):
`f"{event_type}_{timestamp}.mp4"` where `timestamp` is
`datetime.now().strftime("%Y%m%d_%H%M%S")`.  No disambiguator is appended. -/
def clipFilename (event_type timestamp : String) : String :=
  event_type ++ "_" ++ timestamp ++ ".mp4"

/-- Summary of one `save_clip` run (dashcam.py lines 132-159): the extractor
sleeps `seconds_after` seconds (line 145), then snapshots the buffer under the
lock (lines 153-154) and selects the frames to write (lines 156-159). -/
structure SaveClipRun where
  waited_before_snapshot : ℕ
  clip_frames : List Frame
  clip_path : String
deriving DecidableEq

/-- The `save_clip` control flow up to the encode step (dashcam.py lines
132-159): `time.sleep(seconds_after)`, filename generation, buffer snapshot,
and frame selection.  The `timestamp` argument is the formatted device-clock
value produced at line 148. -/
def save_clip (buffer : List Frame) (event_type timestamp : String)
    (seconds_before seconds_after : ℕ) : SaveClipRun :=
  { waited_before_snapshot := seconds_after
    clip_frames := selectFrames buffer seconds_before seconds_after
    clip_path := clipFilename event_type timestamp }

/-- Ideal capture pacing: frame `i` of the snapshot was captured exactly
`(length - 1 - i) / VIDEO_FPS` seconds before the snapshot instant `endTime`.
This idealises the capture loop (dashcam.py lines 113-120), which appends one
frame every `1 / VIDEO_FPS` seconds. -/
def idealPacing (frames : List Frame) (endTime : ℚ) : Prop :=
  ∀ i : Fin frames.length,
    (frames.get i).captured_at
      = endTime - ((frames.length - 1 - (i : ℕ) : ℕ) : ℚ) / (VIDEO_FPS : ℚ)

instance (frames : List Frame) (endTime : ℚ) : Decidable (idealPacing frames endTime) :=
  inferInstanceAs (Decidable (∀ i : Fin frames.length,
    (frames.get i).captured_at
      = endTime - ((frames.length - 1 - (i : ℕ) : ℕ) : ℚ) / (VIDEO_FPS : ℚ)))

theorem idealPacing_pairwise (frames : List Frame) (endTime : ℚ)
    (hpace : idealPacing frames endTime) :
    frames.Pairwise (fun a b => a.captured_at < b.captured_at) := by
  rw [List.pairwise_iff_getElem]
  intro i j hi hj hij
  have hi' := hpace ⟨i, hi⟩
  have hj' := hpace ⟨j, hj⟩
  simp only [List.get_eq_getElem] at hi' hj'
  rw [hi', hj']
  have hnat : frames.length - 1 - j < frames.length - 1 - i := by omega
  have hq : ((frames.length - 1 - j : ℕ) : ℚ) < ((frames.length - 1 - i : ℕ) : ℚ) :=
    Nat.cast_lt.mpr hnat
  have hfps : (0 : ℚ) < (VIDEO_FPS : ℚ) := by norm_num [VIDEO_FPS]
  have hdiv := (div_lt_div_iff_of_pos_right hfps).mpr hq
  linarith

theorem selectFrames_sublist (frames : List Frame) (sb sa : ℕ) :
    (selectFrames frames sb sa).Sublist frames := by
  rw [selectFrames]
  split
  · rw [pySliceLast]
    split
    · exact List.Sublist.refl _
    · exact List.drop_sublist _ _
  · exact List.Sublist.refl _

/-- C2 (amended): assuming the requested window has positive length and the
snapshot frames follow the ideal capture pacing ending at the snapshot
instant `t + seconds_after`, the frames written to the clip have strictly
increasing `captured_at`; when the buffer holds more frames than the window
needs, every selected frame lies inside `[t - seconds_before,
t + seconds_after]`; otherwise the full available history is used.  The
positivity proviso is forced: with `seconds_before = seconds_after = 0` the
Python slice `frames[-0:]` selects the whole buffer (see
`snapshot_window_cex`). -/
theorem snapshot_window (buffer : List Frame) (t : ℚ) (sb sa : ℕ)
    (hpos : 0 < sb + sa)
    (hpace : idealPacing buffer (t + (sa : ℚ))) :
    (selectFrames buffer sb sa).Pairwise (fun a b => a.captured_at < b.captured_at) ∧
    ((sb + sa) * VIDEO_FPS < buffer.length →
      ∀ f ∈ selectFrames buffer sb sa,
        t - (sb : ℚ) ≤ f.captured_at ∧ f.captured_at ≤ t + (sa : ℚ)) ∧
    (buffer.length ≤ (sb + sa) * VIDEO_FPS → selectFrames buffer sb sa = buffer) := by
  have hfps : (0 : ℚ) < (VIDEO_FPS : ℚ) := by norm_num [VIDEO_FPS]
  have hfpsne : (VIDEO_FPS : ℚ) ≠ 0 := ne_of_gt hfps
  have hNpos : 0 < (sb + sa) * VIDEO_FPS := Nat.mul_pos hpos (by norm_num [VIDEO_FPS])
  refine ⟨List.Pairwise.sublist (selectFrames_sublist buffer sb sa)
      (idealPacing_pairwise buffer _ hpace), ?_, ?_⟩
  · intro hlen f hf
    rw [selectFrames, if_pos hlen, pySliceLast, if_neg (by omega)] at hf
    obtain ⟨i, hi, hget⟩ := List.mem_iff_getElem.mp hf
    simp only [List.length_drop] at hi
    rw [List.getElem_drop] at hget
    have hidx : buffer.length - (sb + sa) * VIDEO_FPS + i < buffer.length := by omega
    have hpi := hpace ⟨buffer.length - (sb + sa) * VIDEO_FPS + i, hidx⟩
    simp only [List.get_eq_getElem] at hpi
    rw [hget] at hpi
    have hdnat : buffer.length - 1 - (buffer.length - (sb + sa) * VIDEO_FPS + i)
        < (sb + sa) * VIDEO_FPS := by omega
    have hd : ((buffer.length - 1 - (buffer.length - (sb + sa) * VIDEO_FPS + i) : ℕ) : ℚ)
        < (((sb + sa) * VIDEO_FPS : ℕ) : ℚ) := Nat.cast_lt.mpr hdnat
    have hdiv := (div_lt_div_iff_of_pos_right hfps).mpr hd
    have hcancel : (((sb + sa) * VIDEO_FPS : ℕ) : ℚ) / (VIDEO_FPS : ℚ)
        = (sb : ℚ) + (sa : ℚ) := by
      push_cast
      rw [mul_div_cancel_right₀ _ hfpsne]
    rw [hcancel] at hdiv
    have h0 : (0 : ℚ)
        ≤ ((buffer.length - 1 - (buffer.length - (sb + sa) * VIDEO_FPS + i) : ℕ) : ℚ)
            / (VIDEO_FPS : ℚ) := by positivity
    constructor
    · rw [hpi]
      linarith
    · rw [hpi]
      linarith
  · intro hlen
    rw [selectFrames, if_neg (by omega)]

/-- C2 witness for `snapshot_window`: a one-frame buffer captured exactly at
the snapshot instant of a `[t-1, t+1]` window. -/
theorem snapshot_window_witness :
    (0 < 1 + 1) ∧ idealPacing [Frame.mk 5 0] ((4 : ℚ) + ((1 : ℕ) : ℚ)) ∧
    ((selectFrames [Frame.mk 5 0] 1 1).Pairwise (fun a b => a.captured_at < b.captured_at) ∧
     ((1 + 1) * VIDEO_FPS < ([Frame.mk 5 0] : List Frame).length →
       ∀ f ∈ selectFrames [Frame.mk 5 0] 1 1,
         (4 : ℚ) - ((1 : ℕ) : ℚ) ≤ f.captured_at ∧ f.captured_at ≤ (4 : ℚ) + ((1 : ℕ) : ℚ)) ∧
     (([Frame.mk 5 0] : List Frame).length ≤ (1 + 1) * VIDEO_FPS →
       selectFrames [Frame.mk 5 0] 1 1 = [Frame.mk 5 0])) := by
  have hpace : idealPacing [Frame.mk 5 0] ((4 : ℚ) + ((1 : ℕ) : ℚ)) := by
    intro i
    fin_cases i
    simp [VIDEO_FPS]
    norm_num
  exact ⟨by decide, hpace, snapshot_window [Frame.mk 5 0] 4 1 1 (by decide) hpace⟩

/-- Two ideally paced frames ending at time `0`: the concrete buffer for the
zero-length-window counterexamples. -/
def zeroWindowBuffer : List Frame := [Frame.mk (-1 / 30) 0, Frame.mk 0 1]

/-- C2 counterexample to the claim as stated: with
`seconds_before = seconds_after = 0` (a zero-length window `[t, t]`), the
buffer holds more frames than the window needs, yet `save_clip` selects the
entire buffer (Python `frames[-0:]` is the whole list), so a selected frame
falls outside the requested window. -/
theorem snapshot_window_cex :
    idealPacing zeroWindowBuffer ((0 : ℚ) + ((0 : ℕ) : ℚ)) ∧
    (0 + 0) * VIDEO_FPS < zeroWindowBuffer.length ∧
    ¬ (∀ f ∈ selectFrames zeroWindowBuffer 0 0,
        (0 : ℚ) - ((0 : ℕ) : ℚ) ≤ f.captured_at ∧
          f.captured_at ≤ (0 : ℚ) + ((0 : ℕ) : ℚ)) := by
  refine ⟨?_, by decide, ?_⟩
  · intro i
    fin_cases i
    · simp [zeroWindowBuffer, VIDEO_FPS]
      norm_num
    · simp [zeroWindowBuffer, VIDEO_FPS]
  · intro h
    have hmem := h (Frame.mk (-1 / 30) 0)
      (by simp [selectFrames, pySliceLast, zeroWindowBuffer, VIDEO_FPS])
    norm_num at hmem

/-- C4 (amended): provided `seconds_before + seconds_after > 0`, every
`save_clip` run waits at least `seconds_after` seconds before snapshotting
the buffer, the written clip holds at most
`(seconds_before + seconds_after) * VIDEO_FPS` frames, and when the buffer
holds no more frames than the requested window the clip is written from the
entire available history rather than failing.  The positivity proviso is
forced: with both parameters zero the Python slice `frames[-0:]` keeps the
whole buffer (see `save_clip_zero_window_cex`). -/
theorem save_clip_bounds (buffer : List Frame) (e ts : String) (sb sa : ℕ)
    (hpos : 0 < sb + sa) :
    sa ≤ (save_clip buffer e ts sb sa).waited_before_snapshot ∧
    (save_clip buffer e ts sb sa).clip_frames.length ≤ (sb + sa) * VIDEO_FPS ∧
    (buffer.length ≤ (sb + sa) * VIDEO_FPS →
      (save_clip buffer e ts sb sa).clip_frames = buffer) := by
  have hNpos : 0 < (sb + sa) * VIDEO_FPS := Nat.mul_pos hpos (by norm_num [VIDEO_FPS])
  refine ⟨le_refl _, ?_, ?_⟩
  · show (selectFrames buffer sb sa).length ≤ (sb + sa) * VIDEO_FPS
    rw [selectFrames]
    split
    · rw [pySliceLast, if_neg (by omega)]
      simp only [List.length_drop]
      omega
    · omega
  · intro hlen
    show selectFrames buffer sb sa = buffer
    rw [selectFrames, if_neg (by omega)]

/-- C4 witness for `save_clip_bounds` at the standard harsh-braking call
`save_clip("manual", seconds_before=5, seconds_after=5)` on an empty buffer. -/
theorem save_clip_bounds_witness :
    (0 < 5 + 5) ∧
    (5 ≤ (save_clip [] "manual" "20260101_120000" 5 5).waited_before_snapshot ∧
     (save_clip [] "manual" "20260101_120000" 5 5).clip_frames.length ≤ (5 + 5) * VIDEO_FPS ∧
     (([] : List Frame).length ≤ (5 + 5) * VIDEO_FPS →
       (save_clip [] "manual" "20260101_120000" 5 5).clip_frames = [])) :=
  ⟨by decide, save_clip_bounds [] "manual" "20260101_120000" 5 5 (by decide)⟩

/-- C4 counterexample to the claim as stated: calling `save_clip` with
`seconds_before = seconds_after = 0` on a one-frame buffer produces a clip
with 1 frame, exceeding the claimed bound `(0 + 0) * VIDEO_FPS = 0`, because
the Python slice `frames[-0:]` selects the entire buffer. -/
theorem save_clip_zero_window_cex :
    ¬ ((save_clip [Frame.mk 0 0] "manual" "20260101_120000" 0 0).clip_frames.length
        ≤ (0 + 0) * VIDEO_FPS) := by
  decide

/-- A clip-directory entry as `_cleanup_old_clips` sees it through `f.stat()`
(dashcam.py lines 200-213): file name, `st_size` in bytes, and `st_mtime`
(idealised as a rational). -/
structure FileRec where
  name : String
  size : ℕ
  mtime : ℚ
deriving DecidableEq

/-- Size of one file in gigabytes: `f.stat().st_size / (1024 ** 3)`
(dashcam.py lines 203 and 211). -/
def sizeGb (f : FileRec) : ℚ := (f.size : ℚ) / 1024 ^ 3

/-- Total size of the clips directory in gigabytes (dashcam.py lines
202-203): the byte sizes are summed and then divided by `1024 ** 3`. -/
def totalSizeGb (files : List FileRec) : ℚ :=
  (((files.map FileRec.size).sum : ℕ) : ℚ) / 1024 ^ 3

/-- The comparison behind
`sorted(CLIPS_FOLDER.glob("*"), key=lambda f: f.stat().st_mtime)`
(dashcam.py line 207): ascending modification time. -/
def mtimeLE (f g : FileRec) : Prop := f.mtime ≤ g.mtime

instance : DecidableRel mtimeLE := fun f g =>
  inferInstanceAs (Decidable (f.mtime ≤ g.mtime))

instance : IsTotal FileRec mtimeLE := ⟨fun f g => le_total f.mtime g.mtime⟩

instance : IsTrans FileRec mtimeLE := ⟨fun _ _ _ h1 h2 => le_trans h1 h2⟩

/-- The Python stable ascending sort by modification time (dashcam.py line
207), modelled by stable insertion sort. -/
def sortByMtime (files : List FileRec) : List FileRec :=
  List.insertionSort mtimeLE files

/-- The deletion loop of `_cleanup_old_clips` (dashcam.py lines 209-213):
`while total_size_gb > MAX_STORAGE_GB * 0.8 and files:` pops the oldest
remaining file, subtracts its size from the running total, and unlinks it.
Returns the deleted files in deletion order, paired with the files left on
disk. -/
def evictLoop : ℚ → List FileRec → List FileRec × List FileRec
  | _, [] => ([], [])
  | g, f :: fs =>
    if (MAX_STORAGE_GB : ℚ) * (8 / 10) < g then
      (f :: (evictLoop (g - sizeGb f) fs).1, (evictLoop (g - sizeGb f) fs).2)
    else ([], f :: fs)

/-- `_cleanup_old_clips` (dashcam.py lines 200-213): when the directory total
exceeds `MAX_STORAGE_GB`, run the eviction loop on the files sorted by
ascending modification time; otherwise do nothing.  Returns the pair
(deleted files, remaining files). -/
def cleanup_old_clips (files : List FileRec) : List FileRec × List FileRec :=
  if (MAX_STORAGE_GB : ℚ) < totalSizeGb files then
    evictLoop (totalSizeGb files) (sortByMtime files)
  else ([], files)

theorem evictLoop_append (l : List FileRec) : ∀ g : ℚ,
    (evictLoop g l).1 ++ (evictLoop g l).2 = l := by
  induction l with
  | nil => intro g; simp [evictLoop]
  | cons f fs ih =>
    intro g
    rw [evictLoop]
    split
    · simp [ih]
    · simp

theorem evictLoop_total (l : List FileRec) : ∀ g : ℚ, g = totalSizeGb l →
    totalSizeGb (evictLoop g l).2 ≤ (MAX_STORAGE_GB : ℚ) * (8 / 10) ∨
      (evictLoop g l).2 = [] := by
  induction l with
  | nil =>
    intro g _
    right
    simp [evictLoop]
  | cons f fs ih =>
    intro g hg
    rw [evictLoop]
    split
    · refine ih (g - sizeGb f) ?_
      rw [hg]
      simp only [totalSizeGb, sizeGb, List.map_cons, List.sum_cons]
      push_cast
      ring
    · left
      rw [← hg]
      simpa using le_of_not_lt (by assumption)

theorem sortByMtime_pairwise (files : List FileRec) :
    (sortByMtime files).Pairwise mtimeLE :=
  List.sorted_insertionSort mtimeLE files

theorem sortByMtime_perm (files : List FileRec) :
    (sortByMtime files).Perm files :=
  List.perm_insertionSort mtimeLE files

/-- C3: when the clips directory exceeds `MAX_STORAGE_GB`, cleanup deletes a
prefix of the files sorted by ascending modification time — oldest first —
until the remaining total is at most `0.8 * MAX_STORAGE_GB` or no files
remain, and it never deletes a file whose modification time is newer than
that of a file it retains. -/
theorem cleanup_evicts_oldest_first (files : List FileRec)
    (hover : (MAX_STORAGE_GB : ℚ) < totalSizeGb files) :
    (cleanup_old_clips files).1 ++ (cleanup_old_clips files).2 = sortByMtime files ∧
    (totalSizeGb (cleanup_old_clips files).2 ≤ (MAX_STORAGE_GB : ℚ) * (8 / 10) ∨
      (cleanup_old_clips files).2 = []) ∧
    ∀ d ∈ (cleanup_old_clips files).1, ∀ r ∈ (cleanup_old_clips files).2,
      d.mtime ≤ r.mtime := by
  have hcl : cleanup_old_clips files
      = evictLoop (totalSizeGb files) (sortByMtime files) := by
    rw [cleanup_old_clips, if_pos hover]
  have hsum : ((sortByMtime files).map FileRec.size).sum
      = (files.map FileRec.size).sum :=
    List.Perm.sum_eq (List.Perm.map FileRec.size (sortByMtime_perm files))
  have htot : totalSizeGb (sortByMtime files) = totalSizeGb files := by
    rw [totalSizeGb, totalSizeGb, hsum]
  refine ⟨?_, ?_, ?_⟩
  · rw [hcl]
    exact evictLoop_append _ _
  · rw [hcl]
    exact evictLoop_total (sortByMtime files) (totalSizeGb files) htot.symm
  · intro d hd r hr
    have hpair : (sortByMtime files).Pairwise mtimeLE := sortByMtime_pairwise files
    have happ := evictLoop_append (sortByMtime files) (totalSizeGb files)
    rw [hcl] at hd hr
    rw [← happ] at hpair
    exact (List.pairwise_append.mp hpair).2.2 d hd r hr

/-- An 11 GiB clip with the oldest modification time: concrete storage
witness data. -/
def bigClipA : FileRec :=
  FileRec.mk "harsh_braking_20260101_120000.mp4" (11 * 1073741824) 1

/-- An 11 GiB clip with a newer modification time: concrete storage witness
data. -/
def bigClipB : FileRec :=
  FileRec.mk "follow_distance_20260101_130000.mp4" (11 * 1073741824) 2

/-- C3 witness for `cleanup_evicts_oldest_first`: two 11 GiB clips total
22 GB, over the 20 GB limit. -/
theorem cleanup_evicts_oldest_first_witness :
    (MAX_STORAGE_GB : ℚ) < totalSizeGb [bigClipA, bigClipB] ∧
    ((cleanup_old_clips [bigClipA, bigClipB]).1 ++ (cleanup_old_clips [bigClipA, bigClipB]).2
        = sortByMtime [bigClipA, bigClipB] ∧
     (totalSizeGb (cleanup_old_clips [bigClipA, bigClipB]).2
          ≤ (MAX_STORAGE_GB : ℚ) * (8 / 10) ∨
        (cleanup_old_clips [bigClipA, bigClipB]).2 = []) ∧
     ∀ d ∈ (cleanup_old_clips [bigClipA, bigClipB]).1,
       ∀ r ∈ (cleanup_old_clips [bigClipA, bigClipB]).2, d.mtime ≤ r.mtime) :=
  ⟨by norm_num [totalSizeGb, bigClipA, bigClipB, MAX_STORAGE_GB],
   cleanup_evicts_oldest_first [bigClipA, bigClipB]
     (by norm_num [totalSizeGb, bigClipA, bigClipB, MAX_STORAGE_GB])⟩

/-- C10: when the clips directory total is at most `MAX_STORAGE_GB`,
`_cleanup_old_clips` deletes nothing: the directory is unchanged. -/
theorem cleanup_noop_under_limit (files : List FileRec)
    (h : totalSizeGb files ≤ (MAX_STORAGE_GB : ℚ)) :
    cleanup_old_clips files = ([], files) := by
  rw [cleanup_old_clips, if_neg (not_lt.mpr h)]

/-- A 1 GiB clip: concrete under-limit witness data. -/
def smallClip : FileRec := FileRec.mk "manual_20260101_120000.mp4" 1073741824 1

/-- C10 witness for `cleanup_noop_under_limit`: one 1 GiB clip, under the
20 GB limit. -/
theorem cleanup_noop_under_limit_witness :
    totalSizeGb [smallClip] ≤ (MAX_STORAGE_GB : ℚ) ∧
    cleanup_old_clips [smallClip] = ([], [smallClip]) :=
  ⟨by norm_num [totalSizeGb, smallClip, MAX_STORAGE_GB],
   cleanup_noop_under_limit [smallClip]
     (by norm_num [totalSizeGb, smallClip, MAX_STORAGE_GB])⟩

/-- The deletion loop (dashcam.py lines 209-213) with a fallible
`oldest.unlink()`: `can_unlink` tells whether deleting a given file
succeeds.  The loop body has no `try`/`except`, so a failing unlink raises
out of the loop; the `Except.error` result carries the file whose deletion
failed.  On normal termination the files still on disk are returned. -/
def evictLoopUnlink (can_unlink : FileRec → Bool) :
    ℚ → List FileRec → Except FileRec (List FileRec)
  | _, [] => Except.ok []
  | g, f :: fs =>
    if (MAX_STORAGE_GB : ℚ) * (8 / 10) < g then
      if can_unlink f then evictLoopUnlink can_unlink (g - sizeGb f) fs
      else Except.error f
    else Except.ok (f :: fs)

/-- `_cleanup_old_clips` (dashcam.py lines 200-213) with a fallible unlink:
an unlink failure in the loop propagates out of the whole cleanup call. -/
def cleanup_old_clips_unlink (can_unlink : FileRec → Bool) (files : List FileRec) :
    Except FileRec (List FileRec) :=
  if (MAX_STORAGE_GB : ℚ) < totalSizeGb files then
    evictLoopUnlink can_unlink (totalSizeGb files) (sortByMtime files)
  else Except.ok files

/-- C7 (amended): a failure to delete the current oldest file aborts the
eviction loop immediately — the exception propagates (there is no
`try`/`except` around `oldest.unlink()` in dashcam.py lines 209-213) and no
further files are deleted, rather than eviction continuing with the
next-oldest file. -/
theorem eviction_aborts_on_unlink_failure (can_unlink : FileRec → Bool)
    (g : ℚ) (f : FileRec) (fs : List FileRec)
    (hg : (MAX_STORAGE_GB : ℚ) * (8 / 10) < g) (hf : can_unlink f = false) :
    evictLoopUnlink can_unlink g (f :: fs) = Except.error f := by
  rw [evictLoopUnlink, if_pos hg, hf]
  simp

/-- Unlink succeeds except on the oldest witness clip. -/
def stuckUnlink : FileRec → Bool :=
  fun f => decide (f.name ≠ "harsh_braking_20260101_120000.mp4")

/-- C7 witness for `eviction_aborts_on_unlink_failure`: a 17 GB running
total (over the 16 GB target) and an undeletable oldest file. -/
theorem eviction_aborts_on_unlink_failure_witness :
    ((MAX_STORAGE_GB : ℚ) * (8 / 10) < 17 ∧ stuckUnlink bigClipA = false) ∧
    evictLoopUnlink stuckUnlink 17 [bigClipA, bigClipB] = Except.error bigClipA :=
  ⟨⟨by norm_num [MAX_STORAGE_GB], by decide⟩,
   eviction_aborts_on_unlink_failure stuckUnlink 17 bigClipA [bigClipB]
     (by norm_num [MAX_STORAGE_GB]) (by decide)⟩

/-- C7 counterexample to the claim as stated: with two 11 GiB clips (total
22 GB) and an unlink that fails on the oldest file, the whole cleanup call
raises (`Except.error`) instead of logging and continuing with the
next-oldest file — even though deleting the newer file was still needed and
would have succeeded. -/
theorem eviction_abort_cex :
    cleanup_old_clips_unlink stuckUnlink [bigClipA, bigClipB]
      = Except.error bigClipA := by
  rw [cleanup_old_clips_unlink,
    if_pos (by norm_num [totalSizeGb, bigClipA, bigClipB, MAX_STORAGE_GB])]
  have hs : sortByMtime [bigClipA, bigClipB] = [bigClipA, bigClipB] := by
    simp [sortByMtime, mtimeLE, bigClipA, bigClipB]
  rw [hs]
  exact eviction_aborts_on_unlink_failure stuckUnlink _ bigClipA [bigClipB]
    (by norm_num [totalSizeGb, bigClipA, bigClipB, MAX_STORAGE_GB]) (by decide)

/-- Outcome of the encode-and-write step of `save_clip` (dashcam.py lines
161-180) under a fallible `cv2` write.  `returned` is the value the
`save_clip` call produces (`none` when the write raised and the exception
propagated out of `save_clip`); `disk` is the clip-directory contents after
the step; `write_attempts` counts passes over the frame list (the source
makes exactly one, with no retry loop); `clip_records` are the Clip records
registered afterwards by the caller `save_and_upload` (dashcam.py lines
379-387), which uploads only once `save_clip` returns normally. -/
structure EncodeOutcome where
  returned : Option String
  disk : List String
  write_attempts : ℕ
  clip_records : List String
deriving DecidableEq

/-- The encode step of `save_clip` (dashcam.py lines 161-180):
`cv2.VideoWriter(str(filepath), ...)` creates the file at `path`, then the
frame loop writes into it.  The source wraps none of this in `try`/`except`
and never unlinks `filepath` on error, so when the write fails the partial
file stays on disk and the exception propagates (`returned := none`, no Clip
record); on success the path is returned and registered by the caller. -/
def save_clip_encode (write_fails : Bool) (path : String) (disk : List String) :
    EncodeOutcome :=
  if write_fails then
    { returned := none
      disk := disk ++ [path]
      write_attempts := 1
      clip_records := [] }
  else
    { returned := some path
      disk := disk ++ [path]
      write_attempts := 1
      clip_records := [path] }

/-- C5 (amended): when the encode-and-write step fails with an I/O error,
the extraction ends in a failed state — `save_clip` raises instead of
returning a path, no Clip record is produced, and the write is not retried —
but the partial clip file is NOT removed: it remains on disk, because
dashcam.py lines 161-180 contain no error handling and no unlink. -/
theorem encode_failure_behavior (path : String) (disk : List String) :
    save_clip_encode true path disk
      = { returned := none
          disk := disk ++ [path]
          write_attempts := 1
          clip_records := [] } := by
  rfl

/-- C5 counterexample to the claim as stated: at a concrete failing write,
the extraction does fail with no Clip record, but the partial clip file is
still present on disk afterwards, contradicting "the partial clip file has
been removed if present". -/
theorem encode_failure_partial_left_cex :
    (save_clip_encode true (clipFilename "harsh_braking" "20260101_120000") []).returned
        = none ∧
    (save_clip_encode true (clipFilename "harsh_braking" "20260101_120000") []).clip_records
        = [] ∧
    clipFilename "harsh_braking" "20260101_120000"
      ∈ (save_clip_encode true (clipFilename "harsh_braking" "20260101_120000") []).disk := by
  refine ⟨rfl, rfl, ?_⟩
  simp [save_clip_encode]

/-- C6 counterexample to the claim as stated: the clip path is a pure
function of the event type and the second-resolution timestamp
(dashcam.py lines 147-150) with no monotonic disambiguator, so two
extractions in the same second with the same event type produce the SAME
path, not distinct ones. -/
theorem clip_naming_collision_cex :
    clipFilename "harsh_braking" "20260101_120000"
      = clipFilename "harsh_braking" "20260101_120000" := rfl

/-- C6 (amended): clip file names are built from the event type and the
second-resolution device-clock timestamp only, with no disambiguator: for
fixed-length timestamps, two produced paths are equal exactly when both the
event type and the timestamp agree — in particular two extractions in the
same second sharing an event type collide (the later write may overwrite
the earlier). -/
theorem clip_naming_determined (e1 e2 t1 t2 : String) (h : t1.length = t2.length) :
    clipFilename e1 t1 = clipFilename e2 t2 ↔ e1 = e2 ∧ t1 = t2 := by
  constructor
  · intro heq
    have hdata : e1.data ++ ("_".data ++ (t1.data ++ ".mp4".data))
        = e2.data ++ ("_".data ++ (t2.data ++ ".mp4".data)) := by
      have hd := congrArg String.data heq
      simpa [clipFilename, String.data_append, List.append_assoc] using hd
    have hlen : t1.data.length = t2.data.length := h
    have hsuf : ("_".data ++ (t1.data ++ ".mp4".data)).length
        = ("_".data ++ (t2.data ++ ".mp4".data)).length := by
      simp [hlen]
    have h1 := List.append_inj' hdata hsuf
    have h2 := List.append_inj' (List.append_cancel_left h1.2)
      (by simp : (".mp4".data).length = (".mp4".data).length)
    exact ⟨String.ext h1.1, String.ext h2.1⟩
  · intro he
    rw [he.1, he.2]

/-- C6 witness for `clip_naming_determined`: same event type, two distinct
same-length timestamps give distinct paths; the iff reduces collision to
timestamp equality. -/
theorem clip_naming_determined_witness :
    ("20260101_120000" : String).length = ("20260101_120001" : String).length ∧
    (clipFilename "harsh_braking" "20260101_120000"
        = clipFilename "harsh_braking" "20260101_120001" ↔
      ("harsh_braking" : String) = "harsh_braking" ∧
        ("20260101_120000" : String) = "20260101_120001") :=
  ⟨by decide,
   clip_naming_determined "harsh_braking" "harsh_braking"
     "20260101_120000" "20260101_120001" (by decide)⟩

/-- A JSON value as stored in the dict returned by `json.loads` in
`read_sensor_data` (dashcam.py line 255). -/
inductive JVal where
  | jbool : Bool → JVal
  | jnum : ℚ → JVal
  | jstr : String → JVal
  | jnull : JVal
deriving DecidableEq

/-- The parsed sensor record: a Python dict from keys to JSON values, as an
association list.  The empty list is the empty dict `{}`. -/
abbrev SensorDict := List (String × JVal)

/-- Python `dict.get(key)`: the first binding for `key`, or `None`. -/
def dictGet : SensorDict → String → Option JVal
  | [], _ => none
  | (k, v) :: rest, key => if k = key then some v else dictGet rest key

/-- Python truthiness of a `dict.get` result, as used by
`if sensor_data.get("harsh_braking_detected"):` (dashcam.py lines 375, 391):
`None`, `False`, `0`, `""` and JSON `null` are falsy. -/
def pyTruthy : Option JVal → Bool
  | none => false
  | some (JVal.jbool b) => b
  | some (JVal.jnum q) => decide (q ≠ 0)
  | some (JVal.jstr s) => decide (s ≠ "")
  | some JVal.jnull => false

/-- `ArduinoInterface.read_sensor_data` (dashcam.py lines 246-259).  Inputs
model the serial state and the two external fallible steps: `decoded` is the
result of `self.serial.readline().decode('utf-8').strip()` (errors are the
caught `UnicodeDecodeError`), and `parse` is `json.loads` (errors are the
caught `json.JSONDecodeError`).  Both exceptions are caught by the source
and turned into the empty-dict return, so this function is total: the
dispatch path never sees an exception from a malformed record. -/
def read_sensor_data (connected in_waiting : Bool)
    (decoded : Except Unit String) (parse : String → Except Unit SensorDict) :
    SensorDict :=
  if connected = false then []
  else if in_waiting = false then []
  else
    match decoded with
    | Except.error _ => []
    | Except.ok line =>
      if line.startsWith "\x7b" then
        match parse line with
        | Except.ok d => d
        | Except.error _ => []
      else []

/-- A clip request started by `main` for an event: the `save_clip` arguments
of the spawned `save_and_upload` thread (dashcam.py lines 380 and 395). -/
structure ClipRequest where
  event_type : String
  seconds_before : ℕ
  seconds_after : ℕ
deriving DecidableEq

/-- The event checks of the `main` loop on one sensor record (dashcam.py
lines 369-404): an empty dict is falsy and skips all processing; otherwise a
truthy `harsh_braking_detected` starts a `("harsh_braking", 5, 5)` clip and
a truthy `follow_distance_violation` starts a `("follow_distance", 3, 3)`
clip. -/
def dispatchClipRequests (d : SensorDict) : List ClipRequest :=
  if d = [] then []
  else
    (if pyTruthy (dictGet d "harsh_braking_detected")
      then [ClipRequest.mk "harsh_braking" 5 5] else []) ++
    (if pyTruthy (dictGet d "follow_distance_violation")
      then [ClipRequest.mk "follow_distance" 3 3] else [])

/-- A record the dispatch path discards: whenever the decoded line parses at
all, the parsed dict lacks BOTH event fields.  This covers undecodable
bytes, lines not starting with a brace, JSON parse failures, and parsed
records carrying neither `harsh_braking_detected` nor
`follow_distance_violation`.  It is deliberately narrower than "missing any
required field": `main` reads `latitude` and `longitude` through
`.get(..., 0)` defaults and checks each event flag independently
(dashcam.py lines 371-372, 375, 391), so a record missing one required
field still starts a clip when a present event flag is truthy. -/
def noEventFieldsRecord (decoded : Except Unit String)
    (parse : String → Except Unit SensorDict) : Prop :=
  ∀ line d, decoded = Except.ok line → parse line = Except.ok d →
    dictGet d "harsh_braking_detected" = none ∧
      dictGet d "follow_distance_violation" = none

/-- C8 (amended): an inbound sensor record that is not parseable, or whose
parsed dict carries neither event field, is discarded by the dispatch path
without producing any `ClipRequest`, and no exception escapes:
`read_sensor_data` catches the decode and parse errors internally (it is
total here) and the `main` checks then find nothing truthy.  This is
narrower than the original claim: a record that is merely missing SOME
required field is not discarded — with a truthy event flag present it
produces a `ClipRequest`, as the counterexample shows. -/
theorem no_event_fields_no_clip (connected in_waiting : Bool)
    (decoded : Except Unit String) (parse : String → Except Unit SensorDict)
    (h : noEventFieldsRecord decoded parse) :
    dispatchClipRequests (read_sensor_data connected in_waiting decoded parse) = [] := by
  cases connected with
  | false => rfl
  | true =>
  cases in_waiting with
  | false => rfl
  | true =>
  cases decoded with
  | error e => rfl
  | ok line =>
  by_cases hb : line.startsWith "\x7b"
  · cases hp : parse line with
    | error e =>
      have hread : read_sensor_data true true (Except.ok line) parse = [] := by
        rw [read_sensor_data.eq_def]
        simp [hb, hp]
      rw [hread]
      rfl
    | ok d =>
      have hmiss := h line d rfl hp
      have hread : read_sensor_data true true (Except.ok line) parse = d := by
        rw [read_sensor_data.eq_def]
        simp [hb, hp]
      rw [hread, dispatchClipRequests, hmiss.1, hmiss.2]
      simp [pyTruthy]
  · have hread : read_sensor_data true true (Except.ok line) parse = [] := by
      rw [read_sensor_data.eq_def]
      simp [hb]
    rw [hread]
    rfl

/-- C8 witness for `no_event_fields_no_clip`: a line that is not valid JSON
(every parse attempt fails), read while connected with bytes waiting. -/
theorem no_event_fields_no_clip_witness :
    noEventFieldsRecord (Except.ok "\x7bgarbage")
        (fun _ => Except.error ()) ∧
    dispatchClipRequests
        (read_sensor_data true true (Except.ok "\x7bgarbage")
          (fun _ => Except.error ())) = [] :=
  ⟨fun _ _ _ hp => Except.noConfusion hp,
   no_event_fields_no_clip true true (Except.ok "\x7bgarbage")
     (fun _ => Except.error ()) (fun _ _ _ hp => Except.noConfusion hp)⟩

/-- A sensor record that is malformed in the sense of the original claim —
it is missing the required field `follow_distance_violation` — while
carrying a truthy `harsh_braking_detected` and a location. -/
def incompleteRecord : SensorDict :=
  [("latitude", JVal.jnum 1), ("longitude", JVal.jnum 2),
   ("harsh_braking_detected", JVal.jbool true)]

/-- C8 counterexample to the claim as stated: `incompleteRecord` is missing
the required field `follow_distance_violation`, yet the dispatch checks of
`main` (dashcam.py line 375) find `harsh_braking_detected` truthy and start
a `("harsh_braking", 5, 5)` clip-saving task for it: the record is not
discarded and a `ClipRequest` is produced.  `read_sensor_data` hands a
successfully parsed dict to these checks verbatim, as its definition
shows. -/
theorem missing_field_starts_clip_cex :
    dictGet incompleteRecord "harsh_braking_detected" = some (JVal.jbool true) ∧
    dictGet incompleteRecord "follow_distance_violation" = none ∧
    dispatchClipRequests incompleteRecord
      = [ClipRequest.mk "harsh_braking" 5 5] := by
  decide

/-- Screenshot file name (dashcam.py lines 184-186):
`f"{event_type}_{timestamp}.jpg"`. -/
def screenshotFilename (event_type timestamp : String) : String :=
  event_type ++ "_" ++ timestamp ++ ".jpg"

/-- `DashcamRecorder.capture_screenshot` (dashcam.py lines 182-198): under
the lock, if the buffer is non-empty the newest frame `self.buffer[-1]` is
written with `cv2.imwrite` and the path returned; otherwise nothing is
written and the empty string is returned.  Result: (returned path, clip
directory afterwards). -/
def capture_screenshot (event_type timestamp : String) (buffer : List Frame)
    (disk : List String) : String × List String :=
  match buffer.getLast? with
  | some _ =>
    (screenshotFilename event_type timestamp,
      disk ++ [screenshotFilename event_type timestamp])
  | none => ("", disk)

/-- C9: calling `capture_screenshot` with an empty frame buffer returns the
"no data" result — the empty path — and creates no file on disk. -/
theorem screenshot_empty_buffer_no_file (event_type timestamp : String)
    (disk : List String) :
    capture_screenshot event_type timestamp [] disk = ("", disk) := rfl
